import Mathlib

/-!
Verification of the data-loading pipeline of `src/ml/utils/loading.py`
(`Loader.loading`, with the `mur`-scenario resampling block and the external
splitting utility modelled where noted).

Conventions of the shallow embedding:

* A pandas `DataFrame` is a list of column names plus a list of rows, each row a
  list of rationals.  Machine floats are embedded as exact rationals; claims
  about floating-point rounding error are out of scope.
* A numpy 2-d array (`.values` / `.to_numpy()`) is a `Mat`: a column count
  together with the list of rows.  `np.vstack` succeeds exactly when the two
  column counts agree, which is the shape check of line 149.
* The filter of lines 132-138 uses the bounds `mean ± 3·std`; over the reals,
  `lower < v ∧ v < upper` is equivalent to `(v - mean)^2 < 3^2 · var`, which is
  how the test is written here so that everything stays inside `ℚ`.  For a
  column of length 1, pandas `std()` (ddof = 1) is NaN and both strict
  comparisons against NaN are false, so every row is dropped; the embedding's
  junk value `var = sum / 0 = 0` makes the strict test `(v-m)^2 < 0` fail as
  well, so the two semantics agree.  For a column of length 0 there is no row
  to filter, so the junk value of `mean` is never used.
* `folder=None` makes line 71 (`folder+do`) raise a `TypeError` before anything
  else runs; the embedding returns that error first.
* The file-reading branches (`x0 is None and x1 is None`) call the external
  ROOT reader; the embedding covers the caller-supplied-table path, and the
  `mur` resampling block (lines 92-97) is embedded separately as a function of
  the externally loaded tables and weight columns.
* pandas `x[column]` raises `KeyError` when `column` is missing; the embedding
  totalizes the lookup with a default of `0`.  No theorem below decides a claim
  through that default: every concrete input supplied to preprocessing carries
  the configured columns, and the preprocessing-sensitive theorems either
  disable preprocessing or hold independently of the looked-up values.
-/

abbrev Row := List ℚ

/-- A pandas dataframe: named columns over a list of numeric rows. -/
structure DataFrame where
  cols : List String
  rows : List Row
deriving DecidableEq, Inhabited

/-- A numpy 2-d array: a column count plus the rows. -/
structure Mat where
  w : ℕ
  rows : List Row
deriving DecidableEq, Inhabited

/-- `df.values` / `df.to_numpy()`. -/
def DataFrame.values (df : DataFrame) : Mat :=
  ⟨df.cols.length, df.rows⟩

/-- Python `l[:k]`. -/
def Mat.take (A : Mat) (k : ℕ) : Mat :=
  ⟨A.w, A.rows.take k⟩

/-- Python `l[-k:]`: for `k = 0` this is `l[0:]`, i.e. the whole list. -/
def takeLast (k : ℕ) (l : List α) : List α :=
  if k = 0 then l else l.drop (l.length - k)

/-- Python `A[-k:]` on a 2-d array. -/
def Mat.pyTail (A : Mat) (k : ℕ) : Mat :=
  ⟨A.w, takeLast k A.rows⟩

/-- numpy fancy indexing `A[idx]` (row selection). -/
def Mat.index (A : Mat) (idx : List ℕ) : Mat :=
  ⟨A.w, idx.map fun i => A.rows.getD i []⟩

/-- Abstraction of the exceptions the call can die with: the `TypeError` of
`folder+do` on line 71, and the spec's `InvalidShape` for the `np.vstack`
shape mismatch of line 149. -/
inductive LoadError
  | TypeError
  | InvalidShape
deriving DecidableEq

/-- Line 73: the variable list of the `sherpaVsMG5` and `mur` scenarios. -/
def stdVariables : List String :=
  ["Njets", "j1pT", "j1eta", "ptmiss", "VpT", "Veta"]

/-- Line 100: the variable list of the `qsf` scenario. -/
def qsfVariables : List String :=
  ["Njets", "j1pT", "j1eta", "ptmiss", "l1pT", "l1eta"]

/-- The variable list in scope after the scenario branch: line 73, overridden
on line 100 only by the `qsf` branch (an unknown tag keeps the default). -/
def varsFor (doTag : String) : List String :=
  if doTag = "qsf" then qsfVariables else stdVariables

/-- pandas `df[c]`: the values of column `c` (totalised with default `0` for a
missing column; see the header comment). -/
def colVals (df : DataFrame) (c : String) : List ℚ :=
  df.rows.map fun r => r.getD (df.cols.indexOf c) 0

/-- pandas `Series.mean()`. -/
def mean (l : List ℚ) : ℚ :=
  l.sum / l.length

/-- The square of pandas `Series.std()` (sample variance, ddof = 1). -/
def svar (l : List ℚ) : ℚ :=
  ((l.map fun v => (v - mean l) ^ 2).sum) / ((l.length : ℚ) - 1)

/-- Line 128: `factor = 3`. -/
def factor : ℚ := 3

/-- Lines 137-138: keep the rows of `df` whose value in column `c` lies
strictly between `m - factor·√s` and `m + factor·√s`, written squared. -/
def keepRows (c : String) (m s : ℚ) (df : DataFrame) : DataFrame :=
  { df with rows := df.rows.filter fun r =>
      decide ((r.getD (df.cols.indexOf c) 0 - m) ^ 2 < factor ^ 2 * s) }

/-- Lines 131-140, one iteration: the bounds computed from `x0` (lines 132 and
134) are dead stores, immediately overwritten by the `x1`-derived bounds
(lines 133 and 135), so both tables are filtered with the bounds of the
current `x1`. -/
def filterStep (p : DataFrame × DataFrame) (c : String) : DataFrame × DataFrame :=
  let m := mean (colVals p.2 c)
  let s := svar (colVals p.2 c)
  (keepRows c m s p.1, keepRows c m s p.2)

/-- Lines 131-140: the column loop (bounds recomputed from the already-filtered
`x1` at each iteration). -/
def preprocessFilter (vs : List String) (x0 x1 : DataFrame) : DataFrame × DataFrame :=
  vs.foldl filterStep (x0, x1)

/-- Round half to even, the tie rule of `np.round` / pandas `round`. -/
def roundHalfEven (q : ℚ) : ℤ :=
  if q - ⌊q⌋ < 1 / 2 then ⌊q⌋
  else if 1 / 2 < q - ⌊q⌋ then ⌊q⌋ + 1
  else if Even ⌊q⌋ then ⌊q⌋ else ⌊q⌋ + 1

/-- pandas `round(decimals=2)` on one value. -/
def round2 (q : ℚ) : ℚ :=
  (roundHalfEven (q * 100) : ℚ) / 100

/-- pandas `df.round(decimals=2)`. -/
def roundDF (df : DataFrame) : DataFrame :=
  { df with rows := df.rows.map fun r => r.map round2 }

/-- Lines 126-142: the whole preprocessing block (column-wise filtering, then
rounding of both tables to 2 decimals). -/
def preprocess (vs : List String) (x0 x1 : DataFrame) : DataFrame × DataFrame :=
  let p := preprocessFilter vs x0 x1
  (roundDF p.1, roundDF p.2)

/-- Modelled from the spec: the external "statistical train/test splitting
utility with a fixed random seed and fixed split ratios" (sklearn's
`train_test_split`, excluded as a collaborator in spec §1).  The held-out
count is `⌈(num/den)·n⌉` of the input length (the utility's ceiling rule),
here in `ℕ` arithmetic; the seeded shuffle is abstracted to the identity
permutation, which preserves the partition sizes and the determinism the
claims are about.  Returns `((train, test), (ytrain, ytest))`. -/
def train_test_split (X : List α) (Y : List β) (num den : ℕ) :
    (List α × List α) × (List β × List β) :=
  let nTest := (num * X.length + den - 1) / den
  ((X.drop nTest, X.take nTest), (Y.drop nTest, Y.take nTest))

/-- Everything `Loader.loading` computes and returns or saves: the combined
array and labels (the return value, lines 149-153 and 175), the `X0` slices
(lines 108-115), the stacked `X1` (line 147), and the three-way split
(lines 155-156). -/
structure LoadResult where
  x : Mat
  y : List ℚ
  X0 : Mat
  X0_test : Mat
  X1 : Mat
  X_train : Mat
  X_test : Mat
  X_val : Mat
  y_train : List ℚ
  y_test : List ℚ
  y_val : List ℚ
deriving DecidableEq, Inhabited

/-- Lines 146-156 given the already-computed pieces: stack, label, split.
`y` is `np.zeros` overwritten with `1` from index `X0.shape[0]` on. -/
def buildResult (X0 X0_test X1 : Mat) : LoadResult :=
  let xM : Mat := ⟨X0.w, X0.rows ++ X1.rows⟩
  let y : List ℚ :=
    List.replicate X0.rows.length 0 ++
      List.replicate (xM.rows.length - X0.rows.length) 1
  let s1 := train_test_split xM.rows y 2 5
  let s2 := train_test_split s1.1.1 s1.2.1 1 2
  { x := xM, y := y, X0 := X0, X0_test := X0_test, X1 := X1,
    X_train := ⟨X0.w, s2.1.1⟩, X_test := ⟨X0.w, s1.1.2⟩, X_val := ⟨X0.w, s2.1.2⟩,
    y_train := s2.2.1, y_test := s1.2.2, y_val := s2.2.2 }

/-- Lines 108-115: the `(X0, X0_test)` slices of `x0`, computed from `x0` as it
stands *before* preprocessing.  In the `randomize` branch, `rnd` is the index
list `np.random.choice(range(len(x0)), 2*n_target, replace=True)` returned. -/
def x0Slices (x0 : DataFrame) (n_target : ℕ) (randomize : Bool) (rnd : List ℕ) :
    Mat × Mat :=
  if randomize then
    let randomized := (x0.values).index rnd
    (randomized.take n_target, randomized.pyTail n_target)
  else
    ((x0.values).take n_target, (x0.values).pyTail n_target)

/-- Line 147 (`x1.to_numpy()`), with `x1` replaced by its preprocessed version
when the flag is on (lines 126-142). -/
def x1Mat (vs : List String) (x0 x1 : DataFrame) (preprocessing : Bool) : Mat :=
  if preprocessing then (preprocess vs x0 x1).2.values else x1.values

namespace Loader

/-- `Loader.loading` of lines 28-175, caller-supplied-table path.  Parameters
mirror the source (`do` is a Lean keyword, hence `doTag`); `plot`, `save` and
`correlation` only trigger side effects (plots, prints, file writes) in the
source and do not influence the returned arrays.  `rnd` is the resolved
randomness of `np.random.choice` in the `randomize` branch (line 110): the
index list it returned. -/
def loading (folder : Option String) (plot : Bool) (doTag : String)
    (x0 x1 : DataFrame) (randomize : Bool) (save : Bool) (correlation : Bool)
    (preprocessing : Bool) (rnd : List ℕ) : Except LoadError LoadResult :=
  match folder with
  | none => .error .TypeError
  | some _ =>
    let slices := x0Slices x0 x1.rows.length randomize rnd
    let X1 := x1Mat (varsFor doTag) x0 x1 preprocessing
    if slices.1.w = X1.w then .ok (buildResult slices.1 slices.2 X1)
    else .error .InvalidShape

end Loader

/-- Python `int()` on a rational: truncation toward zero (line 94's
`int(np.sum(...))`). -/
def pyInt (q : ℚ) : ℤ :=
  if 0 ≤ q then ⌊q⌋ else ⌈q⌉

/-- Partial sums of a list, starting from `a`. -/
def cumsumFrom (a : ℚ) : List ℚ → List ℚ
  | [] => []
  | v :: vs => (a + v) :: cumsumFrom (a + v) vs

/-- Partial sums of a list. -/
def cumsum (l : List ℚ) : List ℚ :=
  cumsumFrom 0 l

/-- Modelled from the spec: `np.random.choice(np.arange(n), size=count, p=p)` —
"weighted sampling with replacement" drawing `count` indices from `[0, n)`.
The generator is abstracted as an oracle stream `u` of uniform draws, each
inverted through the cumulative distribution of `p`; the boundary clamp keeps
the picked index inside the population, as the sampler's contract does. -/
def np_random_choice (n count : ℕ) (p : List ℚ) (u : ℕ → ℚ) : List ℕ :=
  (List.range count).map fun k =>
    let j := (cumsum p).findIdx fun s => decide (u k < s)
    if j < n then j else n - 1

/-- Lines 92-97, the `mur`-scenario resampling block, as a function of the
externally loaded primary tables and (unnormalized) `truthWeight` columns:
normalize each weight column, draw `int(sum(w))` indices with the normalized
weights, and re-index each primary table by its draw. -/
def murResample (x0 x1 : DataFrame) (w0 w1 : List ℚ) (u0 u1 : ℕ → ℚ) :
    DataFrame × DataFrame :=
  let p0 := w0.map fun v => v / w0.sum
  let p1 := w1.map fun v => v / w1.sum
  let i0 := np_random_choice x0.rows.length (pyInt w0.sum).toNat p0 u0
  let i1 := np_random_choice x1.rows.length (pyInt w1.sum).toNat p1 u1
  ({ x0 with rows := i0.map fun i => x0.rows.getD i [] },
   { x1 with rows := i1.map fun i => x1.rows.getD i [] })

/-- The per-stage partition sizes forced by the two fixed ratios: held-out
test count `⌈0.40·n⌉`, then validation count `⌈0.50·(n - test)⌉` of the rest.
Returns `(train, val, test)` sizes. -/
def splitCounts (n : ℕ) : ℕ × ℕ × ℕ :=
  let nTest := (2 * n + 4) / 5
  let rem := n - nTest
  let nVal := (rem + 1) / 2
  (rem - nVal, nVal, nTest)

/-- The Preprocessor filter step as claim C1 words it: each of the two tables
is bounded by the mean and standard deviation of that same column computed in
that same table.  Stated from the claim for comparison with the
source-derived `filterStep`. -/
def claimFilterStep (p : DataFrame × DataFrame) (c : String) : DataFrame × DataFrame :=
  (keepRows c (mean (colVals p.1 c)) (svar (colVals p.1 c)) p.1,
   keepRows c (mean (colVals p.2 c)) (svar (colVals p.2 c)) p.2)

/-- The column loop of claim C1's reading (per-table bounds). -/
def claimPreprocessFilter (vs : List String) (x0 x1 : DataFrame) : DataFrame × DataFrame :=
  vs.foldl claimFilterStep (x0, x1)

deriving instance DecidableEq for Except

/- Concrete inputs used by counterexamples and witnesses. -/

/-- Ten small values and one outlier (`200` is outside this column's own
`mean ± 3·std`, but inside the wide bounds derived from `c1x1`). -/
def c1x0 : DataFrame :=
  ⟨["Njets"], [[1], [2], [3], [4], [5], [6], [7], [8], [9], [10], [200]]⟩

/-- A wide-spread two-row table: its `mean ± 3·std` band contains every value
of `c1x0`. -/
def c1x1 : DataFrame :=
  ⟨["Njets"], [[0], [500]]⟩

/-- 1000 identical rows over the six configured columns. -/
def c4x0 : DataFrame :=
  ⟨stdVariables, List.replicate 1000 (List.replicate 6 1)⟩

/-- 400 identical rows: a zero-variance table, which the strict
`mean ± 3·std` filter empties completely. -/
def c4x1 : DataFrame :=
  ⟨stdVariables, List.replicate 400 (List.replicate 6 1)⟩

/-- Two identical rows over the six configured columns. -/
def c2x0 : DataFrame :=
  ⟨stdVariables, List.replicate 2 (List.replicate 6 1)⟩

/-- Two identical rows: zero variance, emptied by the strict filter. -/
def c2x1 : DataFrame :=
  ⟨stdVariables, List.replicate 2 (List.replicate 6 1)⟩

/-- The six configured columns in their configured order. -/
def c8x0 : DataFrame :=
  ⟨stdVariables, [[1, 2, 3, 4, 5, 6], [2, 3, 4, 5, 6, 7]]⟩

/-- The same column set as `c8x0` but with the first two names swapped. -/
def c8x1 : DataFrame :=
  ⟨["j1pT", "Njets", "j1eta", "ptmiss", "VpT", "Veta"],
   [[1, 2, 3, 4, 5, 6], [2, 3, 4, 5, 6, 7]]⟩

/-- Small table with the six configured columns, three rows. -/
def c10x0 : DataFrame :=
  ⟨stdVariables,
   [List.replicate 6 0, List.replicate 6 5, List.replicate 6 10]⟩

/-- Small table with the six configured columns, two rows. -/
def c10x1 : DataFrame :=
  ⟨stdVariables, [List.replicate 6 0, List.replicate 6 10]⟩

/-- Tiny same-width pair for the invariant witnesses (preprocessing off). -/
def c3x0 : DataFrame := ⟨["Njets"], [[5]]⟩

/-- Tiny same-width pair for the invariant witnesses (preprocessing off). -/
def c3x1 : DataFrame := ⟨["Njets"], [[7]]⟩

/-- The `LoadResult` that `Loader.loading` produces on `(c3x0, c3x1)` with
randomization and preprocessing off. -/
def c3Res : LoadResult :=
  { x := ⟨1, [[5], [7]]⟩, y := [0, 1],
    X0 := ⟨1, [[5]]⟩, X0_test := ⟨1, [[5]]⟩, X1 := ⟨1, [[7]]⟩,
    X_train := ⟨1, []⟩, X_test := ⟨1, [[5]]⟩, X_val := ⟨1, [[7]]⟩,
    y_train := [], y_test := [0], y_val := [1] }

/-- Two-row tables for the `mur`-resampling analysis. -/
def c6x0 : DataFrame := ⟨["Njets"], [[1], [2]]⟩

/-- Two-row tables for the `mur`-resampling analysis. -/
def c6x1 : DataFrame := ⟨["Njets"], [[3], [4]]⟩

/-
====================  THEOREMS  ====================
-/

/-! ### Structural helper lemmas -/

theorem Mat.take_w (A : Mat) (k : ℕ) : (A.take k).w = A.w := rfl

theorem Mat.pyTail_w (A : Mat) (k : ℕ) : (A.pyTail k).w = A.w := rfl

theorem keepRows_cols (c : String) (m s : ℚ) (df : DataFrame) :
    (keepRows c m s df).cols = df.cols := rfl

theorem foldl_filterStep_cols (vs : List String) (p : DataFrame × DataFrame) :
    (vs.foldl filterStep p).1.cols = p.1.cols ∧
      (vs.foldl filterStep p).2.cols = p.2.cols := by
  induction vs generalizing p with
  | nil => exact ⟨rfl, rfl⟩
  | cons c vs ih =>
    rw [List.foldl_cons]
    exact ⟨(ih (filterStep p c)).1.trans rfl, (ih (filterStep p c)).2.trans rfl⟩

theorem preprocess_snd_cols (vs : List String) (x0 x1 : DataFrame) :
    (preprocess vs x0 x1).2.cols = x1.cols := by
  show (roundDF (preprocessFilter vs x0 x1).2).cols = x1.cols
  exact (foldl_filterStep_cols vs (x0, x1)).2

theorem x0Slices_fst_w (x0 : DataFrame) (n : ℕ) (rz : Bool) (rnd : List ℕ) :
    (x0Slices x0 n rz rnd).1.w = x0.cols.length := by
  cases rz <;> rfl

theorem x1Mat_w (vs : List String) (x0 x1 : DataFrame) (pp : Bool) :
    (x1Mat vs x0 x1 pp).w = x1.cols.length := by
  cases pp
  · rfl
  · show (preprocess vs x0 x1).2.cols.length = x1.cols.length
    rw [preprocess_snd_cols]

/-- The success case of `Loader.loading` in closed form. -/
theorem loading_some_ok (f : String) (plot : Bool) (doTag : String)
    (x0 x1 : DataFrame) (rz save corr pp : Bool) (rnd : List ℕ)
    (h : x0.cols.length = x1.cols.length) :
    Loader.loading (some f) plot doTag x0 x1 rz save corr pp rnd =
      .ok (buildResult (x0Slices x0 x1.rows.length rz rnd).1
            (x0Slices x0 x1.rows.length rz rnd).2
            (x1Mat (varsFor doTag) x0 x1 pp)) := by
  show (if (x0Slices x0 x1.rows.length rz rnd).1.w =
          (x1Mat (varsFor doTag) x0 x1 pp).w then _ else _) = _
  rw [if_pos]
  rw [x0Slices_fst_w, x1Mat_w]
  exact h

/-- The failure case of `Loader.loading` in closed form. -/
theorem loading_some_error (f : String) (plot : Bool) (doTag : String)
    (x0 x1 : DataFrame) (rz save corr pp : Bool) (rnd : List ℕ)
    (h : x0.cols.length ≠ x1.cols.length) :
    Loader.loading (some f) plot doTag x0 x1 rz save corr pp rnd =
      .error .InvalidShape := by
  show (if (x0Slices x0 x1.rows.length rz rnd).1.w =
          (x1Mat (varsFor doTag) x0 x1 pp).w then _ else _) = _
  rw [if_neg]
  rw [x0Slices_fst_w, x1Mat_w]
  exact h

/-- Any returned result is a `buildResult` on width-matching inputs. -/
theorem loading_ok_inv {folder : Option String} {plot : Bool} {doTag : String}
    {x0 x1 : DataFrame} {rz save corr pp : Bool} {rnd : List ℕ} {r : LoadResult}
    (h : Loader.loading folder plot doTag x0 x1 rz save corr pp rnd = .ok r) :
    r = buildResult (x0Slices x0 x1.rows.length rz rnd).1
          (x0Slices x0 x1.rows.length rz rnd).2
          (x1Mat (varsFor doTag) x0 x1 pp) := by
  cases folder with
  | none => exact absurd h (by simp [Loader.loading])
  | some f =>
    by_cases hw : x0.cols.length = x1.cols.length
    · rw [loading_some_ok f plot doTag x0 x1 rz save corr pp rnd hw] at h
      injection h with h
      exact h.symm
    · rw [loading_some_error f plot doTag x0 x1 rz save corr pp rnd hw] at h
      exact absurd h (by simp)

/-! ### `buildResult` facts -/

theorem buildResult_x (X0 X0t X1 : Mat) :
    (buildResult X0 X0t X1).x = ⟨X0.w, X0.rows ++ X1.rows⟩ := rfl

theorem buildResult_y (X0 X0t X1 : Mat) :
    (buildResult X0 X0t X1).y =
      List.replicate X0.rows.length 0 ++ List.replicate X1.rows.length 1 := by
  show List.replicate X0.rows.length (0:ℚ) ++
        List.replicate ((X0.rows ++ X1.rows).length - X0.rows.length) 1 = _
  rw [List.length_append, Nat.add_sub_cancel_left]

theorem buildResult_split_lengths (X0 X0t X1 : Mat) :
    ((buildResult X0 X0t X1).X_train.rows.length,
     (buildResult X0 X0t X1).X_val.rows.length,
     (buildResult X0 X0t X1).X_test.rows.length) =
      splitCounts (buildResult X0 X0t X1).x.rows.length := by
  simp only [buildResult, train_test_split, splitCounts, List.length_take,
    List.length_drop, Prod.mk.injEq]
  refine ⟨?_, ?_, ?_⟩ <;> omega

/-! ### Claim theorems -/

/-- Claim C9 (confirmed): with `folder=None` the call dies at the very first
statement (`create_missing_folders([folder+do])`, line 71) with a `TypeError`
from the `None + str` concatenation, before any data is touched; no call with
`folder=None` ever returns arrays, whatever the other flags (including
`save=False`) are. -/
theorem claim_C9 (plot : Bool) (doTag : String) (x0 x1 : DataFrame)
    (rz save corr pp : Bool) (rnd : List ℕ) :
    Loader.loading none plot doTag x0 x1 rz save corr pp rnd =
      .error .TypeError := rfl

/-- Claim C3 (confirmed): every result that `Loader.loading` returns has a
combined array and a label vector of the same row count, the combined rows are
the class-0 block followed by the class-1 block, and the labels are a
contiguous prefix of zeros of length exactly the stacked class-0 block's row
count followed by a contiguous suffix of ones. -/
theorem claim_C3 (folder : Option String) (plot : Bool) (doTag : String)
    (x0 x1 : DataFrame) (rz save corr pp : Bool) (rnd : List ℕ) (r : LoadResult)
    (h : Loader.loading folder plot doTag x0 x1 rz save corr pp rnd = .ok r) :
    r.x.rows.length = r.y.length ∧
    r.x.rows = r.X0.rows ++ r.X1.rows ∧
    r.y = List.replicate r.X0.rows.length 0 ++
          List.replicate (r.x.rows.length - r.X0.rows.length) 1 := by
  rw [loading_ok_inv h]
  refine ⟨?_, rfl, rfl⟩
  rw [buildResult_y, buildResult_x]
  simp [List.length_append, List.length_replicate]

/-- Witness for C3 at a concrete call. -/
theorem claim_C3_witness :
    Loader.loading (some "data/") false "sherpaVsMG5" c3x0 c3x1 false false true
        false [] = .ok c3Res ∧
    (c3Res.x.rows.length = c3Res.y.length ∧
     c3Res.x.rows = c3Res.X0.rows ++ c3Res.X1.rows ∧
     c3Res.y = List.replicate c3Res.X0.rows.length 0 ++
       List.replicate (c3Res.x.rows.length - c3Res.X0.rows.length) 1) :=
  ⟨by decide,
   claim_C3 (some "data/") false "sherpaVsMG5" c3x0 c3x1 false false true
     false [] c3Res (by decide)⟩

/-- Claim C5 (confirmed): the three partitions come from the fixed two-stage
split (test fraction 0.40 of the whole, then validation fraction 0.50 of the
remainder, fixed seed); their row counts sum to the combined array's row count
and are the deterministic function `splitCounts` of that total. -/
theorem claim_C5 (folder : Option String) (plot : Bool) (doTag : String)
    (x0 x1 : DataFrame) (rz save corr pp : Bool) (rnd : List ℕ) (r : LoadResult)
    (h : Loader.loading folder plot doTag x0 x1 rz save corr pp rnd = .ok r) :
    r.X_train.rows.length + r.X_val.rows.length + r.X_test.rows.length =
      r.x.rows.length ∧
    (r.X_train.rows.length, r.X_val.rows.length, r.X_test.rows.length) =
      splitCounts r.x.rows.length := by
  rw [loading_ok_inv h]
  refine ⟨?_, buildResult_split_lengths _ _ _⟩
  simp only [buildResult, train_test_split, List.length_take, List.length_drop]
  omega

/-- Witness for C5 at a concrete call. -/
theorem claim_C5_witness :
    Loader.loading (some "data/") false "mur" c3x0 c3x1 false false true
        false [] = .ok c3Res ∧
    (c3Res.X_train.rows.length + c3Res.X_val.rows.length +
        c3Res.X_test.rows.length = c3Res.x.rows.length ∧
     (c3Res.X_train.rows.length, c3Res.X_val.rows.length,
        c3Res.X_test.rows.length) = splitCounts c3Res.x.rows.length) :=
  ⟨by decide,
   claim_C5 (some "data/") false "mur" c3x0 c3x1 false false true false []
     c3Res (by decide)⟩

/-- Claim C8, amended (corrected): the only shape failure is `np.vstack`'s,
which fires exactly when the two tables have *different column counts*; an
equal column count with differently named or reordered columns is not
detected.  (Stated with preprocessing off: with it on, a table missing a
configured column dies earlier with a `KeyError`, not `InvalidShape`.) -/
theorem claim_C8 (f : String) (plot : Bool) (doTag : String)
    (x0 x1 : DataFrame) (rz save corr : Bool) (rnd : List ℕ) :
    Loader.loading (some f) plot doTag x0 x1 rz save corr false rnd =
      .error .InvalidShape ↔ x0.cols.length ≠ x1.cols.length := by
  constructor
  · intro h hcols
    rw [loading_some_ok f plot doTag x0 x1 rz save corr false rnd hcols] at h
    exact absurd h (by simp)
  · exact loading_some_error f plot doTag x0 x1 rz save corr false rnd

/-- Counterexample to C8 as stated: two tables over the *same column set* in a
*different order* — they "do not share the same column set and order", yet the
call returns a combined array (silently stacking misaligned columns) instead
of failing with `InvalidShape`. -/
theorem claim_C8_cex :
    (Loader.loading (some "plots/") false "sherpaVsMG5" c8x0 c8x1 false false
        true true []).isOk = true ∧
    c8x0.cols ≠ c8x1.cols ∧ c8x0.cols.length = c8x1.cols.length := by
  refine ⟨?_, by decide, by decide⟩
  rw [loading_some_ok "plots/" false "sherpaVsMG5" c8x0 c8x1 false false true
    true [] (by decide)]
  rfl

/-! ### Preprocessing invariants (C7) -/

theorem foldl_filterStep_sublist (vs : List String) (p : DataFrame × DataFrame) :
    (vs.foldl filterStep p).1.rows.Sublist p.1.rows ∧
      (vs.foldl filterStep p).2.rows.Sublist p.2.rows := by
  induction vs generalizing p with
  | nil => exact ⟨List.Sublist.refl _, List.Sublist.refl _⟩
  | cons c vs ih =>
    rw [List.foldl_cons]
    refine ⟨(ih (filterStep p c)).1.trans ?_, (ih (filterStep p c)).2.trans ?_⟩
    · exact List.filter_sublist _
    · exact List.filter_sublist _

/-- The result of `round2` is an integer multiple of `1/100`. -/
theorem round2_den (q : ℚ) : ((round2 q) * 100).den = 1 := by
  unfold round2
  rw [div_mul_cancel₀ _ (by norm_num : (100:ℚ) ≠ 0)]
  exact Rat.den_intCast _

/-- Claim C7 (confirmed): for every input pair and every configured column
sequence, preprocessing never increases a table's row count, keeps the
surviving rows in their original relative order (they form a sublist of the
input rows, then rounded elementwise), and every value it outputs is an exact
multiple of `1/100`, i.e. rounded to 2 decimal places. -/
theorem claim_C7 (vs : List String) (x0 x1 : DataFrame) :
    (preprocess vs x0 x1).1.rows.length ≤ x0.rows.length ∧
    (preprocess vs x0 x1).2.rows.length ≤ x1.rows.length ∧
    (preprocessFilter vs x0 x1).1.rows.Sublist x0.rows ∧
    (preprocessFilter vs x0 x1).2.rows.Sublist x1.rows ∧
    (preprocess vs x0 x1).1.rows =
      (preprocessFilter vs x0 x1).1.rows.map (List.map round2) ∧
    (preprocess vs x0 x1).2.rows =
      (preprocessFilter vs x0 x1).2.rows.map (List.map round2) ∧
    ((preprocess vs x0 x1).1.rows.all fun r =>
      r.all fun v => decide ((v * 100).den = 1)) = true ∧
    ((preprocess vs x0 x1).2.rows.all fun r =>
      r.all fun v => decide ((v * 100).den = 1)) = true := by
  obtain ⟨h1, h2⟩ := foldl_filterStep_sublist vs (x0, x1)
  have hall : ∀ l : List Row,
      (l.map (List.map round2)).all (fun r =>
        r.all fun v => decide ((v * 100).den = 1)) = true := by
    intro l
    simp only [List.all_eq_true, List.mem_map, decide_eq_true_eq]
    rintro r ⟨r', -, rfl⟩ v hv
    obtain ⟨u, -, rfl⟩ := List.mem_map.mp hv
    exact round2_den u
  refine ⟨?_, ?_, h1, h2, rfl, rfl, hall _, hall _⟩
  · calc (preprocess vs x0 x1).1.rows.length
        = (preprocessFilter vs x0 x1).1.rows.length := List.length_map _ _
      _ ≤ x0.rows.length := h1.length_le
  · calc (preprocess vs x0 x1).2.rows.length
        = (preprocessFilter vs x0 x1).2.rows.length := List.length_map _ _
      _ ≤ x1.rows.length := h2.length_le

/-! ### Zero-variance columns empty both tables (used by the C2/C4
counterexamples: an `x1` made of one repeated row has sample variance `0` in
every column, and the strict filter then drops every row of both tables). -/

theorem svar_const (n : ℕ) (a : ℚ) : svar (List.replicate n a) = 0 := by
  cases n with
  | zero => simp [svar, mean]
  | succ k =>
    have hm : mean (List.replicate (k + 1) a) = a := by
      rw [mean, List.sum_replicate, List.length_replicate, nsmul_eq_mul,
        mul_div_cancel_left₀ a (by exact_mod_cast Nat.succ_ne_zero k)]
    rw [svar, hm, List.map_replicate]
    simp

theorem keepRows_szero (c : String) (m : ℚ) (df : DataFrame) :
    keepRows c m 0 df = { df with rows := [] } := by
  unfold keepRows
  have : ∀ r : Row,
      (decide ((r.getD (df.cols.indexOf c) 0 - m) ^ 2 < factor ^ 2 * 0)) = false := by
    intro r
    simp only [mul_zero, decide_eq_false_iff_not, not_lt]
    exact sq_nonneg _
  simp [this]
  exact fun a _ => sq_nonneg _

theorem filterStep_replicateSnd (p1 : DataFrame) (cs : List String) (m : ℕ)
    (row : Row) (c : String) :
    filterStep (p1, ⟨cs, List.replicate m row⟩) c =
      ({ p1 with rows := [] }, ⟨cs, []⟩) := by
  have hv : colVals ⟨cs, List.replicate m row⟩ c =
      List.replicate m (row.getD ((⟨cs, List.replicate m row⟩ :
        DataFrame).cols.indexOf c) 0) := by
    simp [colVals, List.map_replicate]
  show (keepRows c _ (svar (colVals ⟨cs, List.replicate m row⟩ c)) p1,
        keepRows c _ (svar (colVals ⟨cs, List.replicate m row⟩ c))
          ⟨cs, List.replicate m row⟩) = _
  rw [hv, svar_const, keepRows_szero, keepRows_szero]

theorem foldl_filterStep_empty (vs : List String) (cs1 cs2 : List String) :
    vs.foldl filterStep (⟨cs1, []⟩, ⟨cs2, []⟩) =
      (⟨cs1, ([] : List Row)⟩, ⟨cs2, ([] : List Row)⟩) := by
  induction vs with
  | nil => rfl
  | cons c vs ih =>
    rw [List.foldl_cons]
    have hstep : filterStep (⟨cs1, ([] : List Row)⟩, ⟨cs2, ([] : List Row)⟩) c =
        (⟨cs1, ([] : List Row)⟩, ⟨cs2, ([] : List Row)⟩) := rfl
    rw [hstep]
    exact ih

theorem preprocess_replicateSnd (c : String) (vs : List String)
    (x0 : DataFrame) (cs : List String) (m : ℕ) (row : Row) :
    (preprocess (c :: vs) x0 ⟨cs, List.replicate m row⟩).2.rows = [] := by
  show (roundDF (preprocessFilter (c :: vs) x0 ⟨cs, List.replicate m row⟩).2).rows = []
  unfold preprocessFilter
  rw [List.foldl_cons, filterStep_replicateSnd]
  rw [show ({ x0 with rows := [] } : DataFrame) = ⟨x0.cols, []⟩ from rfl]
  rw [foldl_filterStep_empty]
  rfl

/-! ### Projection helpers for the returned record -/

theorem toOption_map_ok {ε α β : Type} (e : Except ε α) (b : α) (f : α → β)
    (h : e = .ok b) : e.toOption.map f = some (f b) := by
  subst h
  rfl

theorem x0Slices_false_fst (x0 : DataFrame) (n : ℕ) (rnd : List ℕ) :
    (x0Slices x0 n false rnd).1.rows = x0.rows.take n := rfl

theorem x0Slices_false_snd (x0 : DataFrame) (n : ℕ) (rnd : List ℕ) :
    (x0Slices x0 n false rnd).2.rows = takeLast n x0.rows := rfl

theorem x1Mat_false_rows (vs : List String) (x0 x1 : DataFrame) :
    (x1Mat vs x0 x1 false).rows = x1.rows := rfl

theorem x1Mat_true_rows (vs : List String) (x0 x1 : DataFrame) :
    (x1Mat vs x0 x1 true).rows = (preprocess vs x0 x1).2.rows := rfl

theorem c4x0_len : c4x0.rows.length = 1000 := by
  rw [show c4x0.rows = List.replicate 1000 (List.replicate 6 1) from rfl,
    List.length_replicate]

theorem c4x1_len : c4x1.rows.length = 400 := by
  rw [show c4x1.rows = List.replicate 400 (List.replicate 6 1) from rfl,
    List.length_replicate]

theorem buildResult_xlen_y (X0 X0t X1 : Mat) :
    ((buildResult X0 X0t X1).x.rows.length, (buildResult X0 X0t X1).y) =
      (X0.rows.length + X1.rows.length,
       List.replicate X0.rows.length 0 ++ List.replicate X1.rows.length 1) := by
  rw [Prod.mk.injEq]
  constructor
  · show (X0.rows ++ X1.rows).length = _
    exact List.length_append _ _
  · exact buildResult_y X0 X0t X1

/-- Claim C2, amended (corrected): with preprocessing disabled and `x0` at
least as long as `x1` (randomization at its default, off), the combined array
has exactly `2 × (X1's row count)` rows for every scenario tag, and the label
vector has the same row count with the 0-to-1 transition exactly at the
midpoint.  (As stated — with the flags at their defaults, hence preprocessing
on — the claim fails: see the counterexample.) -/
theorem claim_C2 (f : String) (plot : Bool) (doTag : String) (x0 x1 : DataFrame)
    (save corr : Bool)
    (hlen : x1.rows.length ≤ x0.rows.length)
    (hcols : x0.cols.length = x1.cols.length) :
    (Loader.loading (some f) plot doTag x0 x1 false save corr false
        []).toOption.map (fun r => (r.x.rows.length, r.y)) =
      some (2 * x1.rows.length,
        List.replicate x1.rows.length 0 ++ List.replicate x1.rows.length 1) := by
  rw [toOption_map_ok _ _ _
    (loading_some_ok f plot doTag x0 x1 false save corr false [] hcols)]
  rw [Option.some.injEq]
  rw [buildResult_xlen_y, x0Slices_false_fst, x1Mat_false_rows]
  rw [List.length_take, min_eq_left hlen, Prod.mk.injEq]
  exact ⟨(two_mul _).symm, rfl⟩

/-- Counterexample to C2 as stated: with the flags at their defaults
(preprocessing on), a 2-row `x1` of identical rows has zero variance in every
column, the strict filter empties it, and the returned combined array has 2
rows — not `2 × 2 = 4` — with labels `[0, 0]`: no 0-to-1 transition at the
midpoint. -/
theorem claim_C2_cex :
    (Loader.loading (some "data/") false "sherpaVsMG5" c2x0 c2x1 false false
        true true []).toOption.map (fun r => (r.x.rows.length, r.y)) =
      some (2, [0, 0]) ∧
    (2 : ℕ) ≠ 2 * c2x1.rows.length := by
  constructor
  · rw [toOption_map_ok _ _ _
      (loading_some_ok "data/" false "sherpaVsMG5" c2x0 c2x1 false false true
        true [] (by decide))]
    rw [Option.some.injEq, buildResult_xlen_y]
    have hX1 : (x1Mat (varsFor "sherpaVsMG5") c2x0 c2x1 true).rows = [] := by
      rw [x1Mat_true_rows]
      exact preprocess_replicateSnd "Njets"
        ["j1pT", "j1eta", "ptmiss", "VpT", "Veta"] c2x0 stdVariables 2
        (List.replicate 6 1)
    rw [hX1, x0Slices_false_fst]
    decide
  · decide

/-- Witness for the amended C2 at a concrete call. -/
theorem claim_C2_witness :
    (c3x1.rows.length ≤ c3x0.rows.length ∧
      c3x0.cols.length = c3x1.cols.length) ∧
    (Loader.loading (some "data/") true "qsf" c3x0 c3x1 false true false false
        []).toOption.map (fun r => (r.x.rows.length, r.y)) =
      some (2 * c3x1.rows.length,
        List.replicate c3x1.rows.length 0 ++
          List.replicate c3x1.rows.length 1) :=
  ⟨⟨by decide, by decide⟩,
   claim_C2 "data/" true "qsf" c3x0 c3x1 true false (by decide) (by decide)⟩

/-- Claim C4, amended (corrected): in the generator-comparison scenario with a
1000-row `x0`, a 400-row `x1`, randomization off *and preprocessing off*, the
X0-train slice is the first 400 rows of `x0`, the X0-test slice is the last
400 rows (`x0.rows.drop 600`), the combined array has 800 rows, and the label
vector is 400 zeros followed by 400 ones.  (With preprocessing at its default,
on, the combined length is not 800 in general: see the counterexample.) -/
theorem claim_C4 (f : String) (plot save corr : Bool) (x0 x1 : DataFrame)
    (h0 : x0.rows.length = 1000) (h1 : x1.rows.length = 400)
    (hcols : x0.cols.length = x1.cols.length) :
    (Loader.loading (some f) plot "sherpaVsMG5" x0 x1 false save corr false
        []).toOption.map
      (fun r => (r.X0.rows, r.X0_test.rows, r.x.rows.length, r.y)) =
      some (x0.rows.take 400, x0.rows.drop 600, 800,
        List.replicate 400 0 ++ List.replicate 400 1) := by
  rw [toOption_map_ok _ _ _
    (loading_some_ok f plot "sherpaVsMG5" x0 x1 false save corr false []
      hcols)]
  rw [Option.some.injEq, Prod.mk.injEq]
  constructor
  · rw [show (buildResult (x0Slices x0 x1.rows.length false []).1
        (x0Slices x0 x1.rows.length false []).2
        (x1Mat (varsFor "sherpaVsMG5") x0 x1 false)).X0 =
        (x0Slices x0 x1.rows.length false []).1 from rfl]
    rw [x0Slices_false_fst, h1]
  rw [Prod.mk.injEq]
  constructor
  · rw [show (buildResult (x0Slices x0 x1.rows.length false []).1
        (x0Slices x0 x1.rows.length false []).2
        (x1Mat (varsFor "sherpaVsMG5") x0 x1 false)).X0_test =
        (x0Slices x0 x1.rows.length false []).2 from rfl]
    rw [x0Slices_false_snd, h1]
    show takeLast 400 x0.rows = _
    rw [takeLast, if_neg (by omega), h0]
  have hfst := congrArg Prod.fst (buildResult_xlen_y
    (x0Slices x0 x1.rows.length false []).1
    (x0Slices x0 x1.rows.length false []).2
    (x1Mat (varsFor "sherpaVsMG5") x0 x1 false))
  have hsnd := congrArg Prod.snd (buildResult_xlen_y
    (x0Slices x0 x1.rows.length false []).1
    (x0Slices x0 x1.rows.length false []).2
    (x1Mat (varsFor "sherpaVsMG5") x0 x1 false))
  simp only at hfst hsnd
  rw [Prod.mk.injEq]
  constructor
  · rw [hfst, x0Slices_false_fst, x1Mat_false_rows, List.length_take, h0, h1]
    decide
  · rw [hsnd, x0Slices_false_fst, x1Mat_false_rows, List.length_take, h0, h1]
    rfl

/-- Counterexample to C4 as stated: the flags of the claimed scenario leave
preprocessing at its default (on); with a 1000-row `x0` and a 400-row `x1` of
identical rows, the filter empties `x1` and the combined array has 400 rows,
not 800. -/
theorem claim_C4_cex :
    (Loader.loading (some "data/") false "sherpaVsMG5" c4x0 c4x1 false false
        true true []).toOption.map (fun r => r.x.rows.length) = some 400 ∧
    (400 : ℕ) ≠ 800 ∧
    c4x0.rows.length = 1000 ∧ c4x1.rows.length = 400 := by
  refine ⟨?_, by omega, c4x0_len, c4x1_len⟩
  rw [toOption_map_ok _ _ _
    (loading_some_ok "data/" false "sherpaVsMG5" c4x0 c4x1 false false true
      true [] (by decide))]
  rw [Option.some.injEq]
  have hfst := congrArg Prod.fst (buildResult_xlen_y
    (x0Slices c4x0 c4x1.rows.length false []).1
    (x0Slices c4x0 c4x1.rows.length false []).2
    (x1Mat (varsFor "sherpaVsMG5") c4x0 c4x1 true))
  simp only at hfst
  rw [hfst]
  have hX1 : (x1Mat (varsFor "sherpaVsMG5") c4x0 c4x1 true).rows = [] := by
    rw [x1Mat_true_rows]
    exact preprocess_replicateSnd "Njets"
      ["j1pT", "j1eta", "ptmiss", "VpT", "Veta"] c4x0 stdVariables 400
      (List.replicate 6 1)
  rw [hX1, x0Slices_false_fst]
  rw [show ([] : List Row).length = 0 from rfl, List.length_take, c4x0_len,
    c4x1_len]
  decide

/-- Witness for the amended C4 at a concrete call (the same 1000/400-row pair,
with preprocessing off). -/
theorem claim_C4_witness :
    (c4x0.rows.length = 1000 ∧ c4x1.rows.length = 400 ∧
      c4x0.cols.length = c4x1.cols.length) ∧
    (Loader.loading (some "data/") false "sherpaVsMG5" c4x0 c4x1 false false
        true false []).toOption.map
      (fun r => (r.X0.rows, r.X0_test.rows, r.x.rows.length, r.y)) =
      some (c4x0.rows.take 400, c4x0.rows.drop 600, 800,
        List.replicate 400 0 ++ List.replicate 400 1) :=
  ⟨⟨c4x0_len, c4x1_len, by decide⟩,
   claim_C4 "data/" false false true c4x0 c4x1 c4x0_len c4x1_len (by decide)⟩

/-- Claim C10 (confirmed): with preprocessing on, the class-0 block of the
combined array and the saved `x0_train`/`x0_test` slices are cut from `x0` as
it stood *before* preprocessing (neither outlier-filtered nor rounded), while
the stacked class-1 block is the filtered-and-rounded `x1`. -/
theorem claim_C10 (f : String) (plot : Bool) (doTag : String)
    (x0 x1 : DataFrame) (save corr : Bool)
    (hcols : x0.cols.length = x1.cols.length) :
    (Loader.loading (some f) plot doTag x0 x1 false save corr true
        []).toOption.map
      (fun r => (r.X0.rows, r.X0_test.rows, r.X1.rows, r.x.rows)) =
      some (x0.rows.take x1.rows.length, takeLast x1.rows.length x0.rows,
        (preprocess (varsFor doTag) x0 x1).2.rows,
        x0.rows.take x1.rows.length ++
          (preprocess (varsFor doTag) x0 x1).2.rows) := by
  rw [toOption_map_ok _ _ _
    (loading_some_ok f plot doTag x0 x1 false save corr true [] hcols)]
  rfl

/-! ### The preprocessing bound computation (C1) -/

theorem c1_colVals_x1 : colVals c1x1 "Njets" = [0, 500] := by decide

theorem c1_colVals_x0 :
    colVals c1x0 "Njets" = [1, 2, 3, 4, 5, 6, 7, 8, 9, 10, 200] := by decide

theorem c1_mean_x1 : mean [0, 500] = 250 := by
  rw [mean]
  norm_num

theorem c1_svar_x1 : svar [0, 500] = 125000 := by
  rw [svar, c1_mean_x1]
  norm_num

theorem c1_mean_x0 : mean [1, 2, 3, 4, 5, 6, 7, 8, 9, 10, 200] = 255 / 11 := by
  rw [mean]
  norm_num

theorem c1_svar_x0 :
    svar [1, 2, 3, 4, 5, 6, 7, 8, 9, 10, 200] = 417131 / 121 := by
  rw [svar, c1_mean_x0]
  norm_num

theorem keepRows_rows (c : String) (m s : ℚ) (df : DataFrame) :
    (keepRows c m s df).rows =
      df.rows.filter fun r =>
        decide ((r.getD (df.cols.indexOf c) 0 - m) ^ 2 < factor ^ 2 * s) := rfl

/-- Under the source's filter (bounds from `x1`), every row of `c1x0`
survives. -/
theorem c1_code_rows :
    (preprocessFilter ["Njets"] c1x0 c1x1).1.rows = c1x0.rows := by
  show (keepRows "Njets" (mean (colVals c1x1 "Njets"))
      (svar (colVals c1x1 "Njets")) c1x0).rows = c1x0.rows
  rw [c1_colVals_x1, c1_mean_x1, c1_svar_x1, keepRows_rows]
  norm_num [c1x0, List.filter_cons, List.getD_cons_zero, factor,
    show (["Njets"] : List String).indexOf "Njets" = 0 from by decide]

/-- Under the claim's filter (bounds from `x0` itself), the outlier row
`[200]` is dropped. -/
theorem c1_claim_rows :
    (claimPreprocessFilter ["Njets"] c1x0 c1x1).1.rows =
      [[1], [2], [3], [4], [5], [6], [7], [8], [9], [10]] := by
  show (keepRows "Njets" (mean (colVals c1x0 "Njets"))
      (svar (colVals c1x0 "Njets")) c1x0).rows = _
  rw [c1_colVals_x0, c1_mean_x0, c1_svar_x0, keepRows_rows]
  norm_num [c1x0, List.filter_cons, List.getD_cons_zero, factor,
    show (["Njets"] : List String).indexOf "Njets" = 0 from by decide]

/-- Claim C1 (code bug): the claim — and the evident intent of lines 132 and
134, whose `x0`-derived bounds are computed and then immediately overwritten —
says each table is filtered by bounds from that same table.  The code instead
filters `x0` with the `x1`-derived bounds: on `c1x0`/`c1x1` it keeps all 11
rows of `x0`, including the outlier `[200]` that lies outside `x0`'s own
`mean ± 3·std` band, while the claimed semantics keeps 10. -/
theorem claim_C1 :
    (preprocessFilter ["Njets"] c1x0 c1x1).1.rows.length = 11 ∧
    (claimPreprocessFilter ["Njets"] c1x0 c1x1).1.rows.length = 10 ∧
    [200] ∈ (preprocessFilter ["Njets"] c1x0 c1x1).1.rows ∧
    [200] ∉ (claimPreprocessFilter ["Njets"] c1x0 c1x1).1.rows := by
  rw [c1_code_rows, c1_claim_rows]
  refine ⟨by decide, by decide, by decide, by decide⟩

/-! ### The `mur`-scenario resampling (C6) -/

theorem sum_map_div (l : List ℚ) (d : ℚ) :
    (l.map fun v => v / d).sum = l.sum / d := by
  induction l with
  | nil => exact (zero_div d).symm
  | cons a l ih => rw [List.map_cons, List.sum_cons, List.sum_cons, ih, add_div]

theorem np_random_choice_length (n count : ℕ) (p : List ℚ) (u : ℕ → ℚ) :
    (np_random_choice n count p u).length = count := by
  rw [np_random_choice, List.length_map, List.length_range]

theorem np_random_choice_all_lt (n count : ℕ) (p : List ℚ) (u : ℕ → ℚ)
    (hn : 0 < n) :
    ((np_random_choice n count p u).all fun i => decide (i < n)) = true := by
  simp only [np_random_choice, List.all_eq_true, List.mem_map,
    decide_eq_true_eq]
  rintro i ⟨k, -, rfl⟩
  split
  · exact (by assumption)
  · exact Nat.sub_lt hn Nat.one_pos

theorem murResample_fst_length (x0 x1 : DataFrame) (w0 w1 : List ℚ)
    (u0 u1 : ℕ → ℚ) :
    (murResample x0 x1 w0 w1 u0 u1).1.rows.length = (pyInt w0.sum).toNat := by
  rw [show (murResample x0 x1 w0 w1 u0 u1).1.rows =
      (np_random_choice x0.rows.length (pyInt w0.sum).toNat
        (w0.map fun v => v / w0.sum) u0).map (fun i => x0.rows.getD i [])
    from rfl]
  rw [List.length_map, np_random_choice_length]

theorem murResample_snd_length (x0 x1 : DataFrame) (w0 w1 : List ℚ)
    (u0 u1 : ℕ → ℚ) :
    (murResample x0 x1 w0 w1 u0 u1).2.rows.length = (pyInt w1.sum).toNat := by
  rw [show (murResample x0 x1 w0 w1 u0 u1).2.rows =
      (np_random_choice x1.rows.length (pyInt w1.sum).toNat
        (w1.map fun v => v / w1.sum) u1).map (fun i => x1.rows.getD i [])
    from rfl]
  rw [List.length_map, np_random_choice_length]

/-- Claim C6, amended (corrected): in the `mur` scenario each loaded weight
column is indeed normalized to a probability distribution over its rows (sums
to 1, entries nonnegative), and every drawn index lies inside the original
table's bounds — but the resample count is the weight sum *truncated* by
Python's `int()` (toward zero), not the *rounded* sum the claim states: see
the counterexample. -/
theorem claim_C6 (x0 x1 : DataFrame) (w0 w1 : List ℚ) (u0 u1 : ℕ → ℚ)
    (hx0 : 0 < x0.rows.length) (hx1 : 0 < x1.rows.length)
    (hw0 : w0.sum ≠ 0) (hw1 : w1.sum ≠ 0)
    (hn0 : (w0.all fun v => decide (0 ≤ v)) = true)
    (hn1 : (w1.all fun v => decide (0 ≤ v)) = true) :
    ((w0.map fun v => v / w0.sum).sum = 1 ∧
     ((w0.map fun v => v / w0.sum).all fun v => decide (0 ≤ v)) = true ∧
     (w1.map fun v => v / w1.sum).sum = 1 ∧
     ((w1.map fun v => v / w1.sum).all fun v => decide (0 ≤ v)) = true) ∧
    ((murResample x0 x1 w0 w1 u0 u1).1.rows.length = (pyInt w0.sum).toNat ∧
     (murResample x0 x1 w0 w1 u0 u1).2.rows.length = (pyInt w1.sum).toNat) ∧
    (((np_random_choice x0.rows.length (pyInt w0.sum).toNat
        (w0.map fun v => v / w0.sum) u0).all fun i =>
          decide (i < x0.rows.length)) = true ∧
     ((np_random_choice x1.rows.length (pyInt w1.sum).toNat
        (w1.map fun v => v / w1.sum) u1).all fun i =>
          decide (i < x1.rows.length)) = true) := by
  have hnn : ∀ (w : List ℚ), (w.all fun v => decide (0 ≤ v)) = true →
      w.sum ≠ 0 → ((w.map fun v => v / w.sum).all fun v =>
        decide (0 ≤ v)) = true := by
    intro w hall hsum
    have hpos : 0 ≤ w.sum := by
      apply List.sum_nonneg
      intro a ha
      simpa using (List.all_eq_true.mp hall a ha)
    simp only [List.all_eq_true, List.mem_map, decide_eq_true_eq]
    rintro v ⟨a, ha, rfl⟩
    exact div_nonneg (by simpa using (List.all_eq_true.mp hall a ha)) hpos
  refine ⟨⟨?_, hnn w0 hn0 hw0, ?_, hnn w1 hn1 hw1⟩,
    ⟨murResample_fst_length x0 x1 w0 w1 u0 u1,
     murResample_snd_length x0 x1 w0 w1 u0 u1⟩,
    np_random_choice_all_lt _ _ _ u0 hx0,
    np_random_choice_all_lt _ _ _ u1 hx1⟩
  · rw [sum_map_div, div_self hw0]
  · rw [sum_map_div, div_self hw1]

/-- Counterexample to C6 as stated: with a weight column summing to `4.7`, the
code draws `int(4.7) = 4` rows, while the claim's "rounded sum" is `5`. -/
theorem claim_C6_cex :
    (murResample c6x0 c6x1 [47/20, 47/20] [1, 1] (fun _ => 0)
      (fun _ => 0)).1.rows.length = 4 ∧
    round (([(47:ℚ)/20, 47/20]).sum) = 5 ∧ (4 : ℤ) ≠ 5 := by
  have hsum : ([(47:ℚ)/20, 47/20]).sum = 47 / 10 := by
    rw [List.sum_cons, List.sum_cons, List.sum_nil]
    norm_num
  refine ⟨?_, ?_, by decide⟩
  · rw [murResample_fst_length, hsum]
    rw [show pyInt ((47:ℚ)/10) = 4 from ?_]
    · rfl
    · rw [pyInt, if_pos (by norm_num)]
      norm_num [Int.floor_eq_iff]
  · rw [hsum, round_eq]
    norm_num [Int.floor_eq_iff]

/-- Witness for the amended C6 at concrete weights and tables. -/
theorem claim_C6_witness :
    (0 < c6x0.rows.length ∧ 0 < c6x1.rows.length ∧
     ([(1:ℚ), 2]).sum ≠ 0 ∧ ([(2:ℚ), 1]).sum ≠ 0 ∧
     (([(1:ℚ), 2]).all fun v => decide (0 ≤ v)) = true ∧
     (([(2:ℚ), 1]).all fun v => decide (0 ≤ v)) = true) ∧
    ((([(1:ℚ), 2]).map fun v => v / ([(1:ℚ), 2]).sum).sum = 1 ∧
     ((([(1:ℚ), 2]).map fun v => v / ([(1:ℚ), 2]).sum).all fun v =>
        decide (0 ≤ v)) = true ∧
     (([(2:ℚ), 1]).map fun v => v / ([(2:ℚ), 1]).sum).sum = 1 ∧
     ((([(2:ℚ), 1]).map fun v => v / ([(2:ℚ), 1]).sum).all fun v =>
        decide (0 ≤ v)) = true) ∧
    ((murResample c6x0 c6x1 [1, 2] [2, 1] (fun _ => 0)
        (fun _ => 0)).1.rows.length = (pyInt ([(1:ℚ), 2]).sum).toNat ∧
     (murResample c6x0 c6x1 [1, 2] [2, 1] (fun _ => 0)
        (fun _ => 0)).2.rows.length = (pyInt ([(2:ℚ), 1]).sum).toNat) ∧
    (((np_random_choice c6x0.rows.length (pyInt ([(1:ℚ), 2]).sum).toNat
        (([(1:ℚ), 2]).map fun v => v / ([(1:ℚ), 2]).sum) fun _ => 0).all
          fun i => decide (i < c6x0.rows.length)) = true ∧
     ((np_random_choice c6x1.rows.length (pyInt ([(2:ℚ), 1]).sum).toNat
        (([(2:ℚ), 1]).map fun v => v / ([(2:ℚ), 1]).sum) fun _ => 0).all
          fun i => decide (i < c6x1.rows.length)) = true) :=
  ⟨⟨by decide, by decide, by norm_num, by norm_num, by decide, by decide⟩,
   claim_C6 c6x0 c6x1 [1, 2] [2, 1] (fun _ => 0) (fun _ => 0) (by decide)
     (by decide) (by norm_num) (by norm_num) (by decide) (by decide)⟩

/-- Witness for C10 at a concrete call: the configured columns are present in
both tables, and the class-0 rows come from the raw `c10x0`. -/
theorem claim_C10_witness :
    c10x0.cols.length = c10x1.cols.length ∧
    (Loader.loading (some "data/") false "sherpaVsMG5" c10x0 c10x1 false false
        true true []).toOption.map
      (fun r => (r.X0.rows, r.X0_test.rows, r.X1.rows, r.x.rows)) =
      some (c10x0.rows.take c10x1.rows.length,
        takeLast c10x1.rows.length c10x0.rows,
        (preprocess (varsFor "sherpaVsMG5") c10x0 c10x1).2.rows,
        c10x0.rows.take c10x1.rows.length ++
          (preprocess (varsFor "sherpaVsMG5") c10x0 c10x1).2.rows) :=
  ⟨by decide,
   claim_C10 "data/" false "sherpaVsMG5" c10x0 c10x1 false true (by decide)⟩
